import Mathlib

/-!  Verification of the grove worktree-reconciliation engine.

Shallow embedding of the reconciliation code in `src/utils.py`,
`src/config.py` and the session-kill fragments of `src/app.py`.
External effects (git queries, subprocesses, the tmux server, the
filesystem) are modelled as explicit environment records whose fields
record the outcome each external call would produce; stateful code
threads its state explicitly.  Python exceptions become `Except`
values, `None` becomes `Option`, and Python string operations are
mirrored on Lean `String`.
-/

namespace Grove

/-! ### Python string helpers -/

/-- Whether `pat` is an initial segment of `hay` (character lists). -/
def charsLeadWith : List Char → List Char → Bool
  | [], _ => true
  | _ :: _, [] => false
  | p :: ps, h :: hs => p == h && charsLeadWith ps hs

/-- Whether `pat` occurs contiguously inside `hay` (character lists). -/
def charsContain (hay pat : List Char) : Bool :=
  match hay with
  | [] => pat.isEmpty
  | _ :: t => charsLeadWith pat hay || charsContain t pat

/-- Python's `pat in hay` substring test; `"" in hay` is `True`. -/
def strContains (hay pat : String) : Bool :=
  charsContain hay.data pat.data

/-- Python's `str.isspace` set used by `str.strip()`:
space, tab, newline, carriage return, vertical tab, form feed. -/
def pyIsSpaceChar (c : Char) : Bool :=
  c == ' ' || c == '\t' || c == '\n' || c == '\r' || c == '\x0b' || c == '\x0c'

/-- Python's `s.strip()`: remove leading and trailing whitespace. -/
def pyStrip (s : String) : String :=
  ⟨((s.data.dropWhile pyIsSpaceChar).reverse.dropWhile pyIsSpaceChar).reverse⟩

/-- Split a character list at every occurrence of `sep`. -/
def splitOnChar (sep : Char) : List Char → List (List Char)
  | [] => [[]]
  | c :: rest =>
      let r := splitOnChar sep rest
      if c == sep then [] :: r
      else
        match r with
        | [] => [[c]]
        | h :: t => (c :: h) :: t

/-- Python's `s.split(sep)` for a one-character separator:
`"".split(sep) == [""]` and a separator-free string maps to `[s]`. -/
def pySplit (s : String) (sep : Char) : List String :=
  (splitOnChar sep s.data).map (fun l => ⟨l⟩)

/-- Python's slice `s[:n]` (first `n` characters). -/
def pyTake (s : String) (n : Nat) : String :=
  ⟨s.data.take n⟩

/-- Python's slice `s[n:]` (all but the first `n` characters). -/
def pyDrop (s : String) (n : Nat) : String :=
  ⟨s.data.drop n⟩

/-- Python's `s.startswith(pat)`. -/
def pyStartsWith (s pat : String) : Bool :=
  charsLeadWith pat.data s.data

/-- Propositional form of "pat occurs inside s", used in theorem statements. -/
def ContainsSubstring (s pat : String) : Prop :=
  ∃ pre post, s = pre ++ pat ++ post

/-- Python's `sep.join(parts)`. -/
def joinStrings (sep : String) : List String → String
  | [] => ""
  | [a] => a
  | a :: b :: rest => a ++ sep ++ joinStrings sep (b :: rest)

/-! ### config.py — active repository state

`config.get_active_repo` raises `ConfigError("No active repository set")`
when `_active_repo_path` is `None`; `config.get_repo_path` is a plain
alias for it (config.py lines 250-278).  The module-level
`_active_repo_path` is passed explicitly. -/

inductive ConfigError where
  | noActiveRepo
deriving DecidableEq

/-- Embeds `config.get_active_repo`. -/
def get_active_repo (activeRepoPath : Option String) : Except ConfigError String :=
  match activeRepoPath with
  | none => .error .noActiveRepo
  | some p => .ok p

/-- Embeds `config.get_repo_path` (an alias for `get_active_repo`). -/
def get_repo_path (activeRepoPath : Option String) : Except ConfigError String :=
  get_active_repo activeRepoPath

/-! ### Sync status and commit log (utils.py lines 351-512) -/

/-- A commit as seen through GitPython: full hash, raw message, author
name and committer timestamp (seconds). -/
structure Commit where
  hexsha : String
  message : String
  authorName : String
  committedDate : Int
deriving DecidableEq

/-- One entry of the commit log produced by `_get_commit_list`. -/
structure CommitEntry where
  hash : String
  message : String
  author : String
  date : String
  is_pushed : Bool
deriving DecidableEq

/-- The dict returned by `get_worktree_git_log`. -/
structure GitLogResult where
  sync_status : String
  ahead_count : Nat
  behind_count : Nat
  comparison_branch : String
  commits : List CommitEntry
deriving DecidableEq

/-- Embeds `_EMPTY_GIT_LOG` (utils.py lines 22-28). -/
def EMPTY_GIT_LOG : GitLogResult :=
  { sync_status := "no-upstream"
    ahead_count := 0
    behind_count := 0
    comparison_branch := ""
    commits := [] }

/-- Embeds `_format_relative_date`.  Python's `timedelta` normalises to
`days = floor(total/86400)` and `seconds = total mod 86400`, which is
`Int.fdiv`/`Int.fmod`; `//` on the resulting non-negative ints is `fdiv`. -/
def _format_relative_date (now timestamp : Int) : String :=
  let delta := now - timestamp
  let days := delta.fdiv 86400
  let seconds := delta.fmod 86400
  if days > 365 then
    toString (days.fdiv 365) ++ " year" ++ (if days.fdiv 365 > 1 then "s" else "") ++ " ago"
  else if days > 30 then
    toString (days.fdiv 30) ++ " month" ++ (if days.fdiv 30 > 1 then "s" else "") ++ " ago"
  else if days > 0 then
    toString days ++ " day" ++ (if days > 1 then "s" else "") ++ " ago"
  else if seconds > 3600 then
    toString (seconds.fdiv 3600) ++ " hour" ++ (if seconds.fdiv 3600 > 1 then "s" else "") ++ " ago"
  else if seconds > 60 then
    toString (seconds.fdiv 60) ++ " minute" ++ (if seconds.fdiv 60 > 1 then "s" else "") ++ " ago"
  else
    "just now"

/-- Outcomes of the git queries `_get_sync_status` / `_get_commit_list`
issue against one worktree's repository.  Each field records what the
corresponding GitPython call would return; `none` where the source
catches an exception from that call. -/
structure RepoView where
  /-- `repo.head.is_detached`. -/
  headDetached : Bool
  /-- `repo.active_branch.name`. -/
  currentBranch : String
  /-- `current_branch.tracking_branch()`: the upstream's name, `none` when
  there is no upstream (or the lookup raised — both yield `upstream = None`). -/
  upstream : Option String
  /-- whether `repo.commit('origin/main')` resolves (utils.py line 387). -/
  originMainResolves : Bool
  /-- the `(ahead, behind)` pair from the two `iter_commits` range queries
  (utils.py lines 408-409); `none` when either range query raises. -/
  rangeCounts : Option (Nat × Nat)
  /-- `repo.iter_commits(branch_name, max_count=20)`: commits reachable from
  the current branch, newest first (git itself truncates to `max_count`,
  modelled by `List.take`); `none` when the query raises. -/
  branchCommits : Option (List Commit)
  /-- hashes of `repo.iter_commits(comparison)` — the comparison branch's
  ancestry (utils.py line 448); `none` when that query raises. -/
  comparisonAncestry : Option (List String)
deriving DecidableEq

/-- Embeds `_get_sync_status` (utils.py lines 370-425).  Returns
`(sync_status, ahead_count, behind_count, comparison_branch_name,
comparison_ref)`.  When the range counting raises, the counts stay `0`
and the status stays `"no-upstream"`, but the display name was already
assigned (source line 405 precedes lines 408-409). -/
def _get_sync_status (rv : RepoView) :
    String × Nat × Nat × String × Option String :=
  let upstream := rv.upstream
  let comparison_branch : Option String :=
    if upstream.isSome then upstream
    else if rv.originMainResolves then some "origin/main" else none
  match comparison_branch with
  | none => ("no-upstream", 0, 0, "", none)
  | some branch_name =>
      let display_name :=
        if pyStartsWith branch_name "origin/" then pyDrop branch_name 7 else branch_name
      match rv.rangeCounts with
      | none => ("no-upstream", 0, 0, display_name, some branch_name)
      | some (ahead_count, behind_count) =>
          let sync_status :=
            if ahead_count = 0 ∧ behind_count = 0 then "up-to-date"
            else if ahead_count > 0 ∧ behind_count = 0 then "ahead"
            else if ahead_count = 0 ∧ behind_count > 0 then "behind"
            else "diverged"
          (sync_status, ahead_count, behind_count, display_name, some branch_name)

/-- Embeds `_get_commit_list` (utils.py lines 427-470).  The branch's
commit list is materialised by `list(...)` before the formatting loop, so
a query failure yields the empty list; a failure of the comparison-branch
query only empties the pushed set.  `branch_name` is used by the source
solely to address the git query whose outcome `rv.branchCommits` records. -/
def _get_commit_list (rv : RepoView) (branch_name : String)
    (comparison_branch : Option String) (max_count : Nat) (now : Int) :
    List CommitEntry :=
  let _ := branch_name
  match rv.branchCommits with
  | none => []
  | some commit_list_full =>
      let commit_list := commit_list_full.take max_count
      let pushed_commits : List String :=
        match comparison_branch with
        | none => []
        | some _ =>
            match rv.comparisonAncestry with
            | none => []
            | some hashes => hashes
      commit_list.map (fun commit =>
        let message_str := pyStrip commit.message
        let first_line :=
          if strContains message_str "\n" then (pySplit message_str '\n').headD message_str
          else message_str
        { hash := pyTake commit.hexsha 7
          message := first_line
          author := commit.authorName
          date := _format_relative_date now commit.committedDate
          is_pushed := pushed_commits.contains commit.hexsha })

/-- Environment of one `get_worktree_git_log` call. -/
structure GitLogEnv where
  /-- `config._active_repo_path`. -/
  activeRepoPath : Option String
  /-- `(bare_parent / worktree_name).exists()`. -/
  worktreeOnDisk : Bool
  /-- opening `Repo(worktree_path)` and reading its head: `none` when the
  constructor or the head/branch access raises (caught at line 511). -/
  repoOpen : Option RepoView
deriving DecidableEq

/-- Embeds `get_worktree_git_log` (utils.py lines 472-512).  Note that the
source calls `get_repo_path()` at line 483, OUTSIDE the `try` that starts
at line 492, so a `ConfigError` from an unset active repository
propagates to the caller; the `if bare_parent is None` guard at line 485
is unreachable because `get_repo_path` raises instead of returning
`None`. -/
def get_worktree_git_log (env : GitLogEnv) (now : Int) :
    Except ConfigError GitLogResult :=
  match get_repo_path env.activeRepoPath with
  | .error e => .error e
  | .ok _bare_parent =>
      if ¬env.worktreeOnDisk then .ok EMPTY_GIT_LOG
      else
        match env.repoOpen with
        | none => .ok EMPTY_GIT_LOG
        | some rv =>
            if rv.headDetached then .ok EMPTY_GIT_LOG
            else
              match _get_sync_status rv with
              | (sync_status, ahead_count, behind_count, comparison_branch_name, comparison_ref) =>
                  let commits := _get_commit_list rv rv.currentBranch comparison_ref 20 now
                  .ok { sync_status := sync_status
                        ahead_count := ahead_count
                        behind_count := behind_count
                        comparison_branch := comparison_branch_name
                        commits := commits }

/-! ### Remote branch existence (utils.py lines 220-242) -/

/-- Environment of one `check_remote_branch_exists` call: the output of
`repo.git.status('-b', '--porcelain')`, or `none` when opening the repo
or running the command raises (both are swallowed by the bare `except`). -/
structure RemoteCheckEnv where
  statusOutput : Option String
deriving DecidableEq

/-- Embeds `check_remote_branch_exists`: `[gone]` in the first status
line means removed, `...` without `[gone]` means present, every other
case (empty output, no markers, any exception) falls through to the
final `return True`. -/
def check_remote_branch_exists (env : RemoteCheckEnv) : Bool :=
  match env.statusOutput with
  | none => true
  | some status_output =>
      if status_output ≠ "" then
        let first_line := (pySplit (pyStrip status_output) '\n').headD ""
        if strContains first_line "[gone]" then false
        else if strContains first_line "..." then true
        else true
      else true

/-! ### Worktree removal (utils.py lines 696-834) -/

/-- Outcome of running the `bin/docker/stop` teardown hook via
`subprocess.run` (utils.py lines 710-725). -/
inductive HookOutcome where
  /-- the script is absent (or not a file): nothing runs. -/
  | scriptAbsent
  /-- the script ran to completion with this exit code and stderr text. -/
  | completed (returncode : Int) (stderrText : String)
  /-- `subprocess.TimeoutExpired` after 60 seconds. -/
  | timedOut
  /-- some other exception from the invocation. -/
  | raised (msg : String)
deriving DecidableEq

/-- Embeds `_stop_docker_containers` (utils.py lines 696-727).  A warning
is produced for a completed run only when the exit code is non-zero AND
stderr is non-empty (`if stop_result.returncode != 0 and
stop_result.stderr`, line 719). -/
def _stop_docker_containers (hook : HookOutcome) : Option String :=
  match hook with
  | .scriptAbsent => none
  | .completed returncode stderrText =>
      if returncode ≠ 0 ∧ stderrText ≠ "" then
        some ("Docker cleanup had warnings: " ++ pyStrip stderrText)
      else none
  | .timedOut => some "Docker cleanup timed out after 60 seconds"
  | .raised msg => some ("Docker cleanup failed: " ++ msg)

deriving instance DecidableEq for Except

/-- Environment of one `remove_worktree_with_branch` call. -/
structure RemoveEnv where
  /-- `config._active_repo_path`. -/
  activeRepoPath : Option String
  /-- outcome of the teardown hook. -/
  hook : HookOutcome
  /-- `Repo(bare_repo_path)`: error message when the constructor raises. -/
  bareOpen : Except String Unit
  /-- reading the worktree's checkout (lines 797-803): `none` when
  `Repo(worktree_dir)` raises, `some none` when the head is detached,
  `some (some b)` when the active branch is `b`. -/
  worktreeRepoBranch : Option (Option String)
  /-- lines of `repo.git.worktree('list')`; `none` when it raises. -/
  listOutputLines : Option (List String)
  /-- whether `git worktree remove --force` succeeds (its failure is
  swallowed, line 752). -/
  removeCmdOk : Bool
  /-- `shutil.rmtree(worktree_dir)`: the `OSError` message on failure. -/
  rmtree : Except String Unit
  /-- `repo.git.branch('-D', branch_name)`: the `GitCommandError` message
  on failure (consulted only when a branch name was found). -/
  branchDelete : Except String Unit
deriving DecidableEq

/-- The registration test of utils.py line 743: some line of
`git worktree list` contains the directory name as a substring. -/
def worktreeRegistered (env : RemoveEnv) (worktree_dir_name : String) : Bool :=
  match env.listOutputLines with
  | none => false
  | some worktrees => worktrees.any (fun wt => strContains wt worktree_dir_name)

/-- Embeds `_remove_worktree_directory` (utils.py lines 729-768), with the
directory's on-disk existence threaded explicitly: a successful
`git worktree remove --force` deletes the directory, so the
`worktree_dir.exists()` re-check at line 756 then skips `rmtree`.
`git worktree prune` (lines 763-766) has its errors swallowed and no
observable effect here.  Returns `((success, error_message),
directory_still_exists)`. -/
def _remove_worktree_directory (env : RemoveEnv) (worktree_dir_name : String)
    (dirExists : Bool) : (Bool × String) × Bool :=
  let registered := worktreeRegistered env worktree_dir_name
  let dirAfterRemoveCmd := if registered && env.removeCmdOk then false else dirExists
  if dirAfterRemoveCmd then
    match env.rmtree with
    | .error e => ((false, "Failed to remove directory: " ++ e), true)
    | .ok _ => ((true, ""), false)
  else
    ((true, ""), false)

/-- The source's `branch_name` local (utils.py lines 796-803): the
worktree checkout's active branch, read only while the directory exists
and only when the head is attached. -/
def removeBranchName (env : RemoveEnv) (dirExists : Bool) : Option String :=
  if dirExists then
    match env.worktreeRepoBranch with
    | none => none
    | some none => none
    | some (some b) => some b
  else none

/-- The source's `branch_error` local (utils.py lines 810-816): the
`git branch -D` failure text, when a branch name was found. -/
def removeBranchError (env : RemoveEnv) (dirExists : Bool) : Option String :=
  match removeBranchName env dirExists with
  | none => none
  | some _ =>
      match env.branchDelete with
      | .ok _ => none
      | .error e => some e

/-- The source's `warnings` list (utils.py lines 818-823). -/
def removeWarnings (env : RemoveEnv) (dirExists : Bool) : List String :=
  (match _stop_docker_containers env.hook with
   | some w => [w]
   | none => []) ++
  (match removeBranchError env dirExists with
   | some e => ["Branch deletion failed: " ++ e]
   | none => [])

/-- Embeds `remove_worktree_with_branch` (utils.py lines 770-834).  As in
`get_worktree_git_log`, `get_repo_path()` is called at line 779 outside
the `try` starting at line 788, so a `ConfigError` propagates (the
`is None` guard at line 781 is unreachable).  The teardown hook runs
first (line 790), but its only observable product is the warning text
folded into `removeWarnings`.  Returns the `(success, message)` pair
together with the worktree directory's final on-disk state. -/
def remove_worktree_with_branch (env : RemoveEnv) (worktree_dir_name : String)
    (dirExists : Bool) : Except ConfigError (Bool × String) × Bool :=
  match get_repo_path env.activeRepoPath with
  | .error e => (.error e, dirExists)
  | .ok _bare_parent =>
      match env.bareOpen with
      | .error e => (.ok (false, "Unexpected error: " ++ e), dirExists)
      | .ok _ =>
          match _remove_worktree_directory env worktree_dir_name dirExists with
          | ((success, error_msg), dirFinal) =>
              if ¬success then (.ok (false, error_msg), dirFinal)
              else
                let warnings := removeWarnings env dirExists
                if warnings ≠ [] then
                  (.ok (true, "Worktree removed. " ++ joinStrings " " warnings), dirFinal)
                else
                  (.ok (true, ""), dirFinal)

/-! ### Worktree creation (utils.py lines 627-694) -/

/-- On-disk and git-registration state of the repository root, as far as
worktree creation observes and changes it: the non-hidden directories
under the root, and git's worktree registrations paired with the branch
each checkout has checked out. -/
structure GitState where
  dirs : List String
  registered : List (String × String)
deriving DecidableEq

/-- Branch a registered worktree's checkout currently has (most recent
registration first, mirroring git's one-entry-per-worktree registry). -/
def checkoutBranch (st : GitState) (name : String) : Option String :=
  (st.registered.find? (fun p => p.1 == name)).map (fun p => p.2)

/-- Environment of one `create_worktree_with_branch` call: outcome of
each external git call it makes, in source order. -/
structure CreateEnv where
  /-- `config._active_repo_path`. -/
  activeRepoPath : Option String
  /-- `Repo(bare_repo_path)`. -/
  bareOpen : Except String Unit
  /-- whether `git show-ref --verify refs/remotes/origin/<branch>` succeeds. -/
  remoteBranchExists : Bool
  /-- `git fetch origin <branch>:<branch>`. -/
  fetchBranch : Except String Unit
  /-- `git fetch origin main:main`. -/
  fetchMain : Except String Unit
  /-- `git worktree add <dir> <branch>`. -/
  worktreeAdd : Except String Unit
deriving DecidableEq

/-- Embeds `create_worktree_with_branch` (utils.py lines 627-694).
`get_repo_path()` at line 637 is again outside the `try`.  The
`git branch <branch> main` call's `GitCommandError` is swallowed (lines
665-669: the branch may already exist locally), so its outcome is not
observable and is not a field of `CreateEnv`; likewise the `.grove/.setup`
hook (lines 674-687) has its result discarded.  A successful
`git worktree add` creates the directory, registers the worktree and
checks out `branch_name` there — reflected in the returned `GitState`. -/
def create_worktree_with_branch (env : CreateEnv) (st : GitState)
    (name pfx : String) : Except ConfigError (Bool × String) × GitState :=
  match get_repo_path env.activeRepoPath with
  | .error e => (.error e, st)
  | .ok _bare_parent =>
      let branch_name := pfx ++ name
      match env.bareOpen with
      | .error e => (.ok (false, "Unexpected error: " ++ e), st)
      | .ok _ =>
          let fetchStep : Except String Unit :=
            if env.remoteBranchExists then env.fetchBranch
            else
              match env.fetchMain with
              | .error e => .error e
              | .ok _ => .ok ()
          match fetchStep with
          | .error e => (.ok (false, "Git error: " ++ e), st)
          | .ok _ =>
              match env.worktreeAdd with
              | .error e => (.ok (false, "Git error: " ++ e), st)
              | .ok _ =>
                  let st' : GitState :=
                    { dirs := name :: st.dirs
                      registered := (name, branch_name) :: st.registered }
                  (.ok (true, ""), st')

/-! ### Session orchestration (utils.py lines 46-167) -/

/-- The tmux server's session list (session names, most recently created
first).  tmux keeps at most one session per name. -/
structure TmuxState where
  sessions : List String
deriving DecidableEq

/-- Embeds `session_exists` (utils.py lines 57-63):
`len(server.sessions.filter(session_name=...)) > 0`; a raised query is
reported as `False`, indistinguishable here from an absent name. -/
def session_exists (sessions : List String) (session_name : String) : Bool :=
  decide (0 < (sessions.filter (fun s => s == session_name)).length)

/-- Embeds Python's `s.replace('.', '-')` (utils.py lines 146 and 589):
for a single-character pattern and replacement this is the character-wise
map. -/
def sessionNameOf (s : String) : String :=
  ⟨s.data.map (fun c => if c = '.' then '-' else c)⟩

/-- Environment of one `create_or_switch_to_session` call. -/
structure SessionEnv where
  /-- whether `libtmux.Server()` succeeds (`get_tmux_server`, lines 46-51). -/
  serverAvailable : Bool
  /-- `is_inside_tmux`: the `TMUX` environment variable is set. -/
  insideTmux : Bool
  /-- `_setup_new_session`: `server.new_session(...)` plus the best-effort
  pr.md/hydration steps (whose own exceptions the source swallows);
  an error is the exception text from `new_session`. -/
  newSession : Except String Unit
  /-- `session.switch_client()` (used when inside tmux). -/
  switchClient : Except String Unit
  /-- `session.attach()` (used when outside tmux). -/
  attach : Except String Unit
deriving DecidableEq

/-- Embeds `create_or_switch_to_session` (utils.py lines 130-167).  The
`if not sessions` re-check at line 154 cannot fire when `session_exists`
just returned `True` for the same query, so it has no branch here.  A
successful `new_session` adds one session of the normalised name;
everything else leaves the session list unchanged. -/
def create_or_switch_to_session (env : SessionEnv) (st : TmuxState)
    (worktreeBasename : String) : (Bool × String) × TmuxState :=
  if ¬env.serverAvailable then ((false, "Could not connect to tmux server"), st)
  else
    let session_name := sessionNameOf worktreeBasename
    if ¬session_exists st.sessions session_name then
      match env.newSession with
      | .error e => ((false, "Tmux error: " ++ e), st)
      | .ok _ =>
          let st' : TmuxState := { sessions := session_name :: st.sessions }
          match (if env.insideTmux then env.switchClient else env.attach) with
          | .error e => ((false, "Tmux error: " ++ e), st')
          | .ok _ => ((true, ""), st')
    else
      match (if env.insideTmux then env.switchClient else env.attach) with
      | .error e => ((false, "Tmux error: " ++ e), st)
      | .ok _ => ((true, ""), st)

/-- Embeds the session-kill fragment shared by
`GroveApp.handle_worktree_deletion` (app.py lines 286-296) and
`GroveApp.cleanup_orphaned_worktrees` (app.py lines 586-595): both look
the session up under the RAW worktree name (`session_exists(server,
worktree_name)`, then `server.sessions.filter(session_name=worktree_name)`)
and kill the first match. -/
def kill_session_if_named (st : TmuxState) (worktree_name : String) : TmuxState :=
  if session_exists st.sessions worktree_name then
    { sessions := st.sessions.erase worktree_name }
  else st

/-! ### Pane preview cache (utils.py lines 16-19 and 514-625) -/

/-- Result of `pane.capture_pane()` as the source inspects it: a list of
lines, a non-list value (stringified, with falsy values shown as
"Empty pane"), or an exception. -/
inductive CaptureResult where
  | capturedLines (lines : List String)
  | capturedText (s : String)
  | capturedNone
  | raised
deriving DecidableEq

/-- A pane as `_capture_window_data` inspects it. -/
structure PaneInfo where
  pane_active : Option String
  capture : CaptureResult
deriving DecidableEq

/-- A window as `_capture_window_data` inspects it (libtmux exposes the
formats as strings or `None`). -/
structure PaneWindow where
  window_name : Option String
  window_index : Option String
  window_active : Option String
  panes : List PaneInfo
deriving DecidableEq

/-- One entry of the window list `get_tmux_pane_preview` returns. -/
structure WindowEntry where
  window_name : String
  window_index : String
  content : String
  is_active : Bool
deriving DecidableEq

/-- Truthiness of `window.window_name` / `window.window_index`: `None`
and the empty string are falsy. -/
def pyTruthy : Option String → Bool
  | none => false
  | some s => s ≠ ""

/-- Python's `f"window-{x}"` where `x` may be `None`. -/
def pyShow : Option String → String
  | none => "None"
  | some s => s

/-- Embeds `_capture_window_data` (utils.py lines 514-558). -/
def _capture_window_data (window : PaneWindow) : WindowEntry :=
  let window_name :=
    if pyTruthy window.window_name then (pyShow window.window_name)
    else "window-" ++ pyShow window.window_index
  let window_index :=
    if pyTruthy window.window_index then (pyShow window.window_index) else "0"
  let is_active := window.window_active == some "1"
  match window.panes with
  | [] =>
      { window_name := window_name
        window_index := window_index
        content := "No panes in window"
        is_active := is_active }
  | first :: rest =>
      let active_pane :=
        match (first :: rest).find? (fun pane => pane.pane_active == some "1") with
        | some pane => pane
        | none => first
      let content :=
        match active_pane.capture with
        | .capturedLines lines => joinStrings "\n" lines
        | .capturedText s => if s ≠ "" then s else "Empty pane"
        | .capturedNone => "Empty pane"
        | .raised => "Error capturing pane"
      { window_name := window_name
        window_index := window_index
        content := content
        is_active := is_active }

/-- The polymorphic result of `get_tmux_pane_preview`: a window list or a
status/error string. -/
inductive PanePayload where
  | windowList (ws : List WindowEntry)
  | statusText (s : String)
deriving DecidableEq

/-- The module-level `_tmux_pane_cache`:
`{worktree_name: (timestamp, pane_data)}`. -/
abbrev PaneCache := List (String × Int × PanePayload)

/-- Embeds `TMUX_PANE_CACHE_TTL = 30.0`. -/
def TMUX_PANE_CACHE_TTL : Int := 30

/-- Dictionary lookup `_tmux_pane_cache[worktree_name]`. -/
def cacheLookup (cache : PaneCache) (key : String) : Option (Int × PanePayload) :=
  (cache.find? (fun e => e.1 == key)).map (fun e => e.2)

/-- Dictionary assignment `_tmux_pane_cache[worktree_name] = (ts, data)`. -/
def cacheInsert (cache : PaneCache) (key : String) (ts : Int) (v : PanePayload) :
    PaneCache :=
  (key, ts, v) :: cache.filter (fun e => e.1 != key)

/-- Environment of one preview capture: the tmux world as the `try` body
of `get_tmux_pane_preview` would observe it. -/
structure PaneEnv where
  /-- whether `libtmux.Server()` succeeds. -/
  serverAvailable : Bool
  /-- names of the server's sessions. -/
  sessions : List String
  /-- `session.windows` for the matching session; an error is the text of
  an exception reaching the handler at line 621. -/
  windowsQuery : Except String (List PaneWindow)
deriving DecidableEq

/-- Embeds the body of `get_tmux_pane_preview` after the cache check
(utils.py lines 580-625): every branch, the exception handler included,
stores its result in the cache under the current time before returning.
The `if not sessions` re-check at line 599 cannot fire after
`session_exists` returned `True`, and the `windows_data if windows_data`
guard at line 614 mirrors the source even though a nonempty window list
maps to a nonempty data list. -/
def _pane_preview_capture (env : PaneEnv) (cache : PaneCache) (now : Int)
    (worktree_name : String) : PanePayload × PaneCache :=
  if ¬env.serverAvailable then
    let result := PanePayload.statusText "Tmux not available"
    (result, cacheInsert cache worktree_name now result)
  else
    let session_name := sessionNameOf worktree_name
    if ¬session_exists env.sessions session_name then
      let result := PanePayload.statusText "No active tmux session"
      (result, cacheInsert cache worktree_name now result)
    else
      match env.windowsQuery with
      | .error e =>
          let result := PanePayload.statusText ("Error capturing pane: " ++ e)
          (result, cacheInsert cache worktree_name now result)
      | .ok windows =>
          if windows.isEmpty then
            let result := PanePayload.statusText "No windows in session"
            (result, cacheInsert cache worktree_name now result)
          else
            let windows_data := windows.map _capture_window_data
            let result :=
              if windows_data.isEmpty then PanePayload.statusText "No windows in session"
              else PanePayload.windowList windows_data
            (result, cacheInsert cache worktree_name now result)

/-- Embeds `get_tmux_pane_preview` (utils.py lines 560-625): an empty
worktree name returns `""` at once (uncached); otherwise a cache entry
younger than the TTL is returned verbatim, and anything else goes
through the capture body. -/
def get_tmux_pane_preview (env : PaneEnv) (cache : PaneCache) (now : Int)
    (worktree_name : String) : PanePayload × PaneCache :=
  if worktree_name = "" then (PanePayload.statusText "", cache)
  else
    match cacheLookup cache worktree_name with
    | some (cached_timestamp, cached_data) =>
        if now - cached_timestamp < TMUX_PANE_CACHE_TTL then (cached_data, cache)
        else _pane_preview_capture env cache now worktree_name
    | none => _pane_preview_capture env cache now worktree_name

/-! ### Theorems -/

/-- C2: the spec requires `get_worktree_git_log` never to propagate an
exception, returning the empty sentinel even for an unset active
repository; the code instead calls `get_repo_path()` outside its `try`
block, so with no active repository a `ConfigError` escapes to the
caller.  This theorem evaluates the embedding at that failing input. -/
theorem git_log_raises_configerror_when_no_active_repo :
    get_worktree_git_log
        { activeRepoPath := none, worktreeOnDisk := true, repoOpen := none } 0
      = .error ConfigError.noActiveRepo := rfl

/-- C6: `check_remote_branch_exists` returns `False` exactly when the
(non-empty) status output's first line contains `[gone]`; in every other
case — no tracking markers, a `...` tracking marker without `[gone]`,
empty output, or a raised query — it returns `True`. -/
theorem check_remote_branch_gone_bias (env : RemoteCheckEnv) :
    (check_remote_branch_exists env = false ↔
      ∃ out, env.statusOutput = some out ∧ out ≠ "" ∧
        strContains ((pySplit (pyStrip out) '\n').headD "") "[gone]" = true)
    ∧ (∀ out, env.statusOutput = some out → out ≠ "" →
        strContains ((pySplit (pyStrip out) '\n').headD "") "[gone]" = false →
        check_remote_branch_exists env = true)
    ∧ (env.statusOutput = none → check_remote_branch_exists env = true) := by
  obtain ⟨o⟩ := env
  unfold check_remote_branch_exists
  cases o with
  | none => simp
  | some out =>
      by_cases hempty : out = ""
      · subst hempty
        simp
      · by_cases hgone : strContains ((pySplit (pyStrip out) '\n').headD "") "[gone]" = true
        · simp [hempty, hgone]
        · by_cases hdots : strContains ((out.trim.splitOn "\n").headD "") "..." = true
          · simp [hempty, hgone, hdots]
          · simp [hempty, hgone, hdots]

/-- C6 witness: a `[gone]` marker on the first status line makes the
check return `False`. -/
theorem check_remote_branch_gone_bias_witness :
    check_remote_branch_exists ⟨some "## main...origin/main [gone]"⟩ = false :=
  (check_remote_branch_gone_bias ⟨some "## main...origin/main [gone]"⟩).1.mpr
    ⟨"## main...origin/main [gone]", rfl, by decide, by decide⟩

/-- C5: sync-status classification is total and exclusive: the status is
always exactly one of the five values; it is `no-upstream` exactly when
no comparison branch resolved or the count computation failed; and when
the counts `(a, b)` were computed against a resolved comparison branch,
the returned counts are `(a, b)` and the status matches the table. -/
theorem sync_status_total_exclusive (rv : RepoView) :
    (["up-to-date", "ahead", "behind", "diverged", "no-upstream"].count
        (_get_sync_status rv).1 = 1)
    ∧ ((_get_sync_status rv).1 = "no-upstream" ↔
        ¬((rv.upstream.isSome = true ∨ rv.originMainResolves = true) ∧
          rv.rangeCounts.isSome = true))
    ∧ (∀ a b, (rv.upstream.isSome = true ∨ rv.originMainResolves = true) →
        rv.rangeCounts = some (a, b) →
        (_get_sync_status rv).2.1 = a ∧ (_get_sync_status rv).2.2.1 = b
        ∧ ((_get_sync_status rv).1 = "up-to-date" ↔ a = 0 ∧ b = 0)
        ∧ ((_get_sync_status rv).1 = "ahead" ↔ a > 0 ∧ b = 0)
        ∧ ((_get_sync_status rv).1 = "behind" ↔ a = 0 ∧ b > 0)
        ∧ ((_get_sync_status rv).1 = "diverged" ↔ a > 0 ∧ b > 0)) := by
  obtain ⟨hd, cb, up, om, rc, bc, ca⟩ := rv
  unfold _get_sync_status
  rcases up with _ | u <;> rcases om with _ | _ <;>
    rcases rc with _ | ⟨a, b⟩ <;>
      simp_all <;>
        by_cases ha : a = 0 <;> by_cases hb : b = 0 <;>
          simp_all [Nat.pos_iff_ne_zero]

/-- C5 witness: two commits ahead of a resolved upstream with none
behind classifies as `ahead`. -/
theorem sync_status_total_exclusive_witness :
    (_get_sync_status
        { headDetached := false, currentBranch := "feat",
          upstream := some "origin/feat", originMainResolves := false,
          rangeCounts := some (2, 0), branchCommits := none,
          comparisonAncestry := none }).1 = "ahead" :=
  ((sync_status_total_exclusive
      { headDetached := false, currentBranch := "feat",
        upstream := some "origin/feat", originMainResolves := false,
        rangeCounts := some (2, 0), branchCommits := none,
        comparisonAncestry := none }).2.2 2 0 (Or.inl rfl) rfl).2.2.2.1.mpr
    (by decide)

/-- A worktree with one local commit on its branch, no tracked upstream,
and no resolvable `origin/main`. -/
def repoViewC1 : RepoView :=
  { headDetached := false
    currentBranch := "feature-one"
    upstream := none
    originMainResolves := false
    rangeCounts := none
    branchCommits := some
      [{ hexsha := "abc1234def5678", message := "initial commit",
         authorName := "Alice", committedDate := 0 }]
    comparisonAncestry := none }

/-- An active repository whose worktree is `repoViewC1`. -/
def gitLogEnvC1 : GitLogEnv :=
  { activeRepoPath := some "/repo", worktreeOnDisk := true,
    repoOpen := some repoViewC1 }

/-- C1 counterexample: with no upstream and no resolvable `origin/main`,
`get_worktree_git_log` does report `no-upstream` — but the returned
commit list is NOT empty: the worktree's one commit is still listed
(marked not pushed), refuting "no commit log is produced". -/
theorem no_upstream_fallback_still_lists_commits_cex :
    get_worktree_git_log gitLogEnvC1 0 = .ok
      { sync_status := "no-upstream", ahead_count := 0, behind_count := 0,
        comparison_branch := "",
        commits := [{ hash := "abc1234", message := "initial commit",
                      author := "Alice", date := "just now", is_pushed := false }] }
    ∧ [{ hash := "abc1234", message := "initial commit", author := "Alice",
         date := "just now", is_pushed := false }] ≠ ([] : List CommitEntry) :=
  ⟨by decide, by decide⟩

/-- C1 (amended): when the current branch has no tracked upstream and
`origin/main` fails to resolve, `get_worktree_git_log` returns sync
status `no-upstream` with zero counts and an empty comparison-branch
name, but the commit log is still produced from the current branch (up
to 20 commits, each marked not pushed). -/
theorem no_upstream_fallback_commit_log (env : GitLogEnv) (now : Int)
    (rv : RepoView) (p : String)
    (hrepo : env.activeRepoPath = some p)
    (hdisk : env.worktreeOnDisk = true)
    (hopen : env.repoOpen = some rv)
    (hdet : rv.headDetached = false)
    (hup : rv.upstream = none)
    (hmain : rv.originMainResolves = false) :
    get_worktree_git_log env now = .ok
      { sync_status := "no-upstream", ahead_count := 0, behind_count := 0,
        comparison_branch := "",
        commits := _get_commit_list rv rv.currentBranch none 20 now }
    ∧ ∀ c ∈ _get_commit_list rv rv.currentBranch none 20 now,
        c.is_pushed = false := by
  constructor
  · simp [get_worktree_git_log, get_repo_path, get_active_repo, hrepo, hdisk,
      hopen, hdet, _get_sync_status, hup, hmain]
  · intro c hc
    unfold _get_commit_list at hc
    rcases h : rv.branchCommits with _ | l
    · rw [h] at hc
      simp at hc
    · rw [h] at hc
      simp only [List.mem_map] at hc
      obtain ⟨x, _, rfl⟩ := hc
      simp [List.contains]

/-- C1 witness: the amended statement evaluated on `gitLogEnvC1`. -/
theorem no_upstream_fallback_commit_log_witness :
    get_worktree_git_log gitLogEnvC1 0 = .ok
      { sync_status := "no-upstream", ahead_count := 0, behind_count := 0,
        comparison_branch := "",
        commits := _get_commit_list repoViewC1 repoViewC1.currentBranch none 20 0 } :=
  (no_upstream_fallback_commit_log gitLogEnvC1 0 repoViewC1 "/repo"
    rfl rfl rfl rfl rfl rfl).1

/-- When `rmtree` would succeed, `_remove_worktree_directory` reports
success with the directory gone, whatever registration says. -/
theorem remove_dir_ok_of_rmtree_ok (env : RemoveEnv) (name : String) (d : Bool)
    (h : env.rmtree = .ok ()) :
    _remove_worktree_directory env name d = ((true, ""), false) := by
  by_cases hb : (worktreeRegistered env name && env.removeCmdOk) = true <;>
    cases d <;> simp_all [_remove_worktree_directory]

/-- A successful `_remove_worktree_directory` leaves no directory. -/
theorem remove_dir_success_dir_gone (env : RemoveEnv) (name : String) (d : Bool)
    (h : (_remove_worktree_directory env name d).1.1 = true) :
    (_remove_worktree_directory env name d).2 = false := by
  rcases hrm : env.rmtree with e | u <;>
    by_cases hr : worktreeRegistered env name = true <;>
      by_cases hc : env.removeCmdOk = true <;>
        cases d <;> simp_all [_remove_worktree_directory]

/-- The joined warning list starts with its first element. -/
theorem joinStrings_cons (sep w : String) (rest : List String) :
    ∃ tail, joinStrings sep (w :: rest) = w ++ tail := by
  cases rest with
  | nil => exact ⟨"", (String.append_empty w).symm⟩
  | cons b t => exact ⟨sep ++ joinStrings sep (b :: t), String.append_assoc w sep _⟩

/-- A docker warning puts the warning list in cons form. -/
theorem removeWarnings_cons (env : RemoveEnv) (d : Bool) (w : String)
    (hw : _stop_docker_containers env.hook = some w) :
    ∃ rest, removeWarnings env d = w :: rest := by
  unfold removeWarnings
  rw [hw]
  exact ⟨_, rfl⟩

/-- A nonempty left part keeps an appended string nonempty. -/
theorem append_ne_empty_left (a b : String) (ha : a ≠ "") : a ++ b ≠ "" := by
  intro h
  apply ha
  have hl := congrArg String.length h
  rw [String.length_append] at hl
  have h0 : ("" : String).length = 0 := rfl
  rw [h0] at hl
  have : a.length = 0 := by omega
  exact String.ext (List.length_eq_zero.mp this)

/-- Substring exhibition for a message of the shape
`pre ++ ((pat ++ mid) ++ tail)`. -/
theorem containsSub_shape (pre pat mid tail : String) :
    ContainsSubstring (pre ++ ((pat ++ mid) ++ tail)) pat :=
  ⟨pre, mid ++ tail, by simp [String.append_assoc]⟩

/-- With the repository available and `rmtree` succeeding, a docker
warning makes `remove_worktree_with_branch` succeed with a message led
by that warning. -/
theorem remove_warning_message (env : RemoveEnv) (name p w : String) (d0 : Bool)
    (hrepo : env.activeRepoPath = some p)
    (hopen : env.bareOpen = .ok ())
    (hrm : env.rmtree = .ok ())
    (hw : _stop_docker_containers env.hook = some w) :
    ∃ tail, (remove_worktree_with_branch env name d0).1
      = .ok (true, "Worktree removed. " ++ (w ++ tail)) := by
  obtain ⟨rest, hrest⟩ := removeWarnings_cons env d0 w hw
  obtain ⟨tail, htail⟩ := joinStrings_cons " " w rest
  refine ⟨tail, ?_⟩
  unfold remove_worktree_with_branch
  rw [hrepo]
  simp only [get_repo_path, get_active_repo]
  rw [hopen, remove_dir_ok_of_rmtree_ok env name d0 hrm, hrest]
  simp [htail]

def removeEnvC3 : RemoveEnv :=
  { activeRepoPath := some "/repo"
    hook := .completed 1 ""
    bareOpen := .ok ()
    worktreeRepoBranch := some (some "feature-one")
    listOutputLines := some ["/repo/feature-one 1a2b3c [feature-one]"]
    removeCmdOk := true
    rmtree := .ok ()
    branchDelete := .ok () }

/-- C3 counterexample: the teardown hook exits non-zero but writes
nothing to stderr; the source's `if returncode != 0 and stderr` guard
then produces NO warning, so the removal succeeds with an EMPTY message —
refuting "success with a non-empty warning string". -/
theorem docker_nonzero_silent_exit_no_warning_cex :
    removeEnvC3.hook = .completed 1 "" ∧ (1 : Int) ≠ 0 ∧
    remove_worktree_with_branch removeEnvC3 "feature-one" true
      = (.ok (true, ""), false) :=
  ⟨rfl, by decide, by decide⟩

/-- C3 (amended): when the teardown hook exits non-zero AND produces
stderr output (or times out) while the directory removal succeeds, the
result is success with a non-empty warning mentioning the docker
cleanup; a non-zero exit with empty stderr yields no warning at all. -/
theorem docker_warning_on_noisy_failure (env : RemoveEnv) (name p : String)
    (d0 : Bool)
    (hrepo : env.activeRepoPath = some p)
    (hopen : env.bareOpen = .ok ())
    (hrm : env.rmtree = .ok ())
    (hhook : (∃ rc s, env.hook = .completed rc s ∧ rc ≠ 0 ∧ s ≠ "")
             ∨ env.hook = .timedOut) :
    ∃ msg, (remove_worktree_with_branch env name d0).1 = .ok (true, msg)
      ∧ msg ≠ ""
      ∧ (ContainsSubstring msg "Docker cleanup had warnings"
         ∨ ContainsSubstring msg "Docker cleanup timed out") := by
  rcases hhook with ⟨rc, s, hh, hrc, hs⟩ | hh
  · have hw : _stop_docker_containers env.hook
        = some ("Docker cleanup had warnings: " ++ pyStrip s) := by
      rw [hh]
      unfold _stop_docker_containers
      simp [hrc, hs]
    obtain ⟨tail, heq⟩ := remove_warning_message env name p _ d0 hrepo hopen hrm hw
    refine ⟨_, heq, ?_, Or.inl ?_⟩
    · exact append_ne_empty_left _ _ (by decide)
    · have hshape : ("Docker cleanup had warnings: " ++ pyStrip s) ++ tail
          = ("Docker cleanup had warnings" ++ (": " ++ pyStrip s)) ++ tail := by
        rw [← String.append_assoc]
        rfl
      rw [hshape]
      exact containsSub_shape _ _ _ tail
  · have hw : _stop_docker_containers env.hook
        = some "Docker cleanup timed out after 60 seconds" := by
      rw [hh]; rfl
    obtain ⟨tail, heq⟩ := remove_warning_message env name p _ d0 hrepo hopen hrm hw
    refine ⟨_, heq, ?_, Or.inr ?_⟩
    · exact append_ne_empty_left _ _ (by decide)
    · have hshape : ("Docker cleanup timed out after 60 seconds" : String) ++ tail
          = ("Docker cleanup timed out" ++ " after 60 seconds") ++ tail := by rfl
      rw [hshape]
      exact containsSub_shape _ _ _ tail

def removeEnvC3Noisy : RemoveEnv :=
  { removeEnvC3 with hook := .completed 1 "cannot stop container\n" }

/-- C3 witness: the amended statement evaluated with a hook that exits
non-zero and writes to stderr. -/
theorem docker_warning_on_noisy_failure_witness :
    ∃ msg, (remove_worktree_with_branch removeEnvC3Noisy "feature-one" true).1
      = .ok (true, msg)
      ∧ msg ≠ ""
      ∧ (ContainsSubstring msg "Docker cleanup had warnings"
         ∨ ContainsSubstring msg "Docker cleanup timed out") :=
  docker_warning_on_noisy_failure removeEnvC3Noisy "feature-one" "/repo" true
    rfl rfl rfl
    (Or.inl ⟨1, "cannot stop container\n", rfl, by decide, by decide⟩)

/-- C4: `remove_worktree_with_branch` never reports success while the
worktree directory still exists: (1) any successful result leaves the
directory gone; (2) an `rmtree` failure on a still-present directory is
returned as a fatal `Failed to remove directory` error with the
directory persisting; (3) whenever `rmtree` would succeed, the operation
succeeds regardless of teardown-hook or branch-deletion failures. -/
theorem remove_worktree_directory_failure_fatal :
    (∀ (env : RemoveEnv) (name : String) (d0 : Bool) (msg : String),
        (remove_worktree_with_branch env name d0).1 = .ok (true, msg) →
        (remove_worktree_with_branch env name d0).2 = false)
    ∧ (∀ (env : RemoveEnv) (name p e : String),
        env.activeRepoPath = some p → env.bareOpen = .ok () →
        env.rmtree = .error e →
        (worktreeRegistered env name && env.removeCmdOk) = false →
        remove_worktree_with_branch env name true
          = (.ok (false, "Failed to remove directory: " ++ e), true))
    ∧ (∀ (env : RemoveEnv) (name p : String) (d0 : Bool),
        env.activeRepoPath = some p → env.bareOpen = .ok () →
        env.rmtree = .ok () →
        ∃ msg, (remove_worktree_with_branch env name d0).1 = .ok (true, msg)) := by
  refine ⟨?_, ?_, ?_⟩
  · intro env name d0 msg h
    unfold remove_worktree_with_branch at h ⊢
    cases har : env.activeRepoPath with
    | none =>
        rw [har] at h
        simp [get_repo_path, get_active_repo] at h
    | some p =>
        rw [har] at h
        simp only [get_repo_path, get_active_repo] at h ⊢
        cases hbo : env.bareOpen with
        | error e =>
            rw [hbo] at h
            simp at h
        | ok u =>
            cases u
            rw [hbo] at h
            rcases hR : _remove_worktree_directory env name d0 with ⟨⟨s, m⟩, df⟩
            cases s with
            | false => simp [hR] at h
            | true =>
                have hgone := remove_dir_success_dir_gone env name d0 (by rw [hR])
                rw [hR] at hgone
                by_cases hw : removeWarnings env d0 ≠ [] <;>
                  simp [hw] at h ⊢ <;> exact hgone
  · intro env name p e hrepo hopen hrm hreg
    unfold remove_worktree_with_branch
    rw [hrepo]
    simp only [get_repo_path, get_active_repo]
    rw [hopen]
    have hR : _remove_worktree_directory env name true
        = ((false, "Failed to remove directory: " ++ e), true) := by
      unfold _remove_worktree_directory
      rw [hrm]
      simp [hreg]
    rw [hR]
    simp
  · intro env name p d0 hrepo hopen hrm
    unfold remove_worktree_with_branch
    rw [hrepo]
    simp only [get_repo_path, get_active_repo]
    rw [hopen, remove_dir_ok_of_rmtree_ok env name d0 hrm]
    by_cases hw : removeWarnings env d0 ≠ []
    · exact ⟨"Worktree removed. " ++ joinStrings " " (removeWarnings env d0),
        by simp [hw]⟩
    · exact ⟨"", by simp [hw]⟩

def removeEnvOk : RemoveEnv :=
  { activeRepoPath := some "/repo"
    hook := .scriptAbsent
    bareOpen := .ok ()
    worktreeRepoBranch := some (some "feature-one")
    listOutputLines := some []
    removeCmdOk := true
    rmtree := .ok ()
    branchDelete := .ok () }

def removeEnvRmFail : RemoveEnv :=
  { removeEnvOk with rmtree := .error "Permission denied", listOutputLines := none }

/-- C4 witness: the three parts evaluated at concrete environments. -/
theorem remove_worktree_directory_failure_fatal_witness :
    (remove_worktree_with_branch removeEnvOk "feature-one" true).2 = false
    ∧ remove_worktree_with_branch removeEnvRmFail "feature-one" true
        = (.ok (false, "Failed to remove directory: Permission denied"), true)
    ∧ ∃ msg, (remove_worktree_with_branch removeEnvOk "feature-one" true).1
        = .ok (true, msg) :=
  ⟨remove_worktree_directory_failure_fatal.1 removeEnvOk "feature-one" true ""
      (by decide),
   remove_worktree_directory_failure_fatal.2.1 removeEnvRmFail "feature-one"
      "/repo" "Permission denied" rfl rfl rfl (by decide),
   remove_worktree_directory_failure_fatal.2.2 removeEnvOk "feature-one"
      "/repo" true rfl rfl rfl⟩

/-- C7: a successful `create_worktree_with_branch` leaves the worktree
directory present, its checkout on the branch `pfx ++ name`, and the
worktree registered with git. -/
theorem create_worktree_success_postcondition (env : CreateEnv) (st st' : GitState)
    (name pfx msg : String)
    (h : create_worktree_with_branch env st name pfx = (.ok (true, msg), st')) :
    st'.dirs.contains name = true
    ∧ checkoutBranch st' name = some (pfx ++ name)
    ∧ st'.registered.contains (name, pfx ++ name) = true := by
  rcases env with ⟨ar, bo, rbe, fb, fm, wa⟩
  rcases ar with _ | p <;> rcases bo with e | ⟨⟩ <;> cases rbe <;>
    rcases fb with e1 | ⟨⟩ <;> rcases fm with e2 | ⟨⟩ <;> rcases wa with e3 | ⟨⟩ <;>
      simp_all [create_worktree_with_branch, get_repo_path, get_active_repo,
        checkoutBranch] <;>
        simp [← h.2, List.contains]

def createEnvOk : CreateEnv :=
  { activeRepoPath := some "/repo"
    bareOpen := .ok ()
    remoteBranchExists := false
    fetchBranch := .ok ()
    fetchMain := .ok ()
    worktreeAdd := .ok () }

/-- C7 witness: creating `feature-one` with prefix `ep/` in an empty
repository root. -/
theorem create_worktree_success_postcondition_witness :
    (GitState.mk ["feature-one"] [("feature-one", "ep/feature-one")]).dirs.contains
        "feature-one" = true
    ∧ checkoutBranch ⟨["feature-one"], [("feature-one", "ep/feature-one")]⟩
        "feature-one" = some ("ep/" ++ "feature-one")
    ∧ (GitState.mk ["feature-one"] [("feature-one", "ep/feature-one")]).registered.contains
        ("feature-one", "ep/" ++ "feature-one") = true :=
  create_worktree_success_postcondition createEnvOk ⟨[], []⟩
    ⟨["feature-one"], [("feature-one", "ep/feature-one")]⟩
    "feature-one" "ep/" "" (by decide)

/-- Session existence is membership in the server's session list. -/
theorem session_exists_iff_mem (l : List String) (x : String) :
    session_exists l x = true ↔ x ∈ l := by
  unfold session_exists
  simp only [decide_eq_true_eq, List.length_pos_iff_exists_mem, List.mem_filter,
    beq_iff_eq]
  constructor
  · rintro ⟨a, ha, rfl⟩
    exact ha
  · intro hx
    exact ⟨x, hx, rfl⟩

/-- A call that reports success leaves the session present. -/
theorem create_or_switch_success_exists (env : SessionEnv) (st : TmuxState)
    (base : String)
    (h : (create_or_switch_to_session env st base).1.1 = true) :
    session_exists (create_or_switch_to_session env st base).2.sessions
      (sessionNameOf base) = true := by
  unfold create_or_switch_to_session at h ⊢
  by_cases hsa : env.serverAvailable = true
  · simp only [hsa] at h ⊢
    by_cases hex : session_exists st.sessions (sessionNameOf base) = true
    · simp only [hex] at h ⊢
      rcases hat : (if env.insideTmux then env.switchClient else env.attach) with
        e | ⟨⟩ <;> simp [hat] at h ⊢ <;> exact hex
    · simp only [Bool.not_eq_true] at hex
      simp only [hex] at h ⊢
      rcases hns : env.newSession with e | ⟨⟩
      · simp [hns] at h
      · rcases hat : (if env.insideTmux then env.switchClient else env.attach) with
          e | ⟨⟩ <;> simp [hns, hat] at h ⊢ <;>
            simp [session_exists_iff_mem]
  · simp [hsa] at h

/-- With the session already present, the call leaves the server's
session list untouched. -/
theorem create_or_switch_reuses (env : SessionEnv) (st : TmuxState)
    (base : String)
    (hex : session_exists st.sessions (sessionNameOf base) = true) :
    (create_or_switch_to_session env st base).2 = st := by
  unfold create_or_switch_to_session
  by_cases hsa : env.serverAvailable = true <;> simp [hsa, hex]
  rcases hat : (if env.insideTmux then env.switchClient else env.attach) with
    e | ⟨⟩ <;> simp [hat]

/-- The state after a call is either unchanged or gains exactly the
normalised session (which was absent before). -/
theorem create_or_switch_state (env : SessionEnv) (st : TmuxState)
    (base : String) :
    (create_or_switch_to_session env st base).2 = st
    ∨ ((create_or_switch_to_session env st base).2
          = ⟨sessionNameOf base :: st.sessions⟩
        ∧ session_exists st.sessions (sessionNameOf base) = false) := by
  unfold create_or_switch_to_session
  by_cases hsa : env.serverAvailable = true <;> simp [hsa]
  by_cases hex : session_exists st.sessions (sessionNameOf base) = true <;>
    simp [hex]
  · rcases hat : (if env.insideTmux then env.switchClient else env.attach) with
      e | ⟨⟩ <;> simp [hat]
  · rcases hns : env.newSession with e | ⟨⟩ <;> simp [hns]
    · simp at hex
      rcases hat : (if env.insideTmux then env.switchClient else env.attach) with
        e | ⟨⟩ <;> simp [hat, hex]

/-- C9: `create_or_switch_to_session` is idempotent in session creation:
starting from a server with at most one session of the worktree's
(normalised) name, two successive successful calls leave exactly one
such session, and the second call changes nothing — it finds and reuses
the existing session instead of creating another. -/
theorem create_or_switch_session_idempotent (env1 env2 : SessionEnv)
    (st : TmuxState) (base : String)
    (huniq : (st.sessions.filter (fun s => s == sessionNameOf base)).length ≤ 1)
    (h1 : (create_or_switch_to_session env1 st base).1.1 = true)
    (h2 : (create_or_switch_to_session env2
            (create_or_switch_to_session env1 st base).2 base).1.1 = true) :
    (create_or_switch_to_session env2
        (create_or_switch_to_session env1 st base).2 base).2
      = (create_or_switch_to_session env1 st base).2
    ∧ (((create_or_switch_to_session env2
          (create_or_switch_to_session env1 st base).2 base).2).sessions.filter
            (fun s => s == sessionNameOf base)).length = 1 := by
  have hex1 := create_or_switch_success_exists env1 st base h1
  have hsame := create_or_switch_reuses env2 _ base hex1
  refine ⟨hsame, ?_⟩
  rw [hsame]
  rcases create_or_switch_state env1 st base with heq | ⟨heq, habs⟩
  · rw [heq] at hex1 ⊢
    unfold session_exists at hex1
    have hpos := of_decide_eq_true hex1
    omega
  · rw [heq]
    unfold session_exists at habs
    have h0 : ¬0 < (st.sessions.filter (fun s => s == sessionNameOf base)).length :=
      of_decide_eq_false habs
    have habs0 : (st.sessions.filter (fun s => s == sessionNameOf base)).length = 0 := by
      omega
    simp [List.filter_cons, habs0]

def sessionEnvOk : SessionEnv :=
  { serverAvailable := true
    insideTmux := false
    newSession := .ok ()
    switchClient := .ok ()
    attach := .ok () }

/-- C9 witness: two successful calls for `feature-one` on an initially
empty server leave exactly one `feature-one` session. -/
theorem create_or_switch_session_idempotent_witness :
    (create_or_switch_to_session sessionEnvOk
        (create_or_switch_to_session sessionEnvOk ⟨[]⟩ "feature-one").2
        "feature-one").2
      = (create_or_switch_to_session sessionEnvOk ⟨[]⟩ "feature-one").2
    ∧ (((create_or_switch_to_session sessionEnvOk
          (create_or_switch_to_session sessionEnvOk ⟨[]⟩ "feature-one").2
          "feature-one").2).sessions.filter
            (fun s => s == sessionNameOf "feature-one")).length = 1 :=
  create_or_switch_session_idempotent sessionEnvOk sessionEnvOk ⟨[]⟩ "feature-one"
    (by decide) (by decide) (by decide)

/-- Mapping dots to dashes changes any character list containing a dot. -/
theorem map_dot_dash_ne (l : List Char) (hdot : '.' ∈ l) :
    l.map (fun c => if c = '.' then '-' else c) ≠ l := by
  induction l with
  | nil => simp at hdot
  | cons a t ih =>
      intro h
      simp only [List.map_cons, List.cons.injEq] at h
      rcases List.mem_cons.mp hdot with heq | hm
      · rw [← heq] at h
        simp at h
      · exact ih hm h.2

/-- A worktree name containing a dot differs from its session name. -/
theorem sessionNameOf_ne_of_dot (base : String) (hdot : '.' ∈ base.data) :
    sessionNameOf base ≠ base := by
  intro h
  exact map_dot_dash_ne base.data hdot (congrArg String.data h)

/-- C10: for a worktree name containing a dot, the session is created
under the normalised name (dots replaced by dashes), but the
deletion handler and the orphan reconciler look the session up under the
raw name — so removing the worktree leaves the session that was created
for it untouched and still running. -/
theorem dotted_worktree_session_survives_removal (env : SessionEnv)
    (st : TmuxState) (base : String)
    (hdot : '.' ∈ base.data)
    (hraw : base ∉ st.sessions)
    (hok : (create_or_switch_to_session env st base).1.1 = true) :
    session_exists (create_or_switch_to_session env st base).2.sessions
      (sessionNameOf base) = true
    ∧ kill_session_if_named (create_or_switch_to_session env st base).2 base
        = (create_or_switch_to_session env st base).2
    ∧ session_exists
        (kill_session_if_named (create_or_switch_to_session env st base).2
          base).sessions
        (sessionNameOf base) = true := by
  have hcreated := create_or_switch_success_exists env st base hok
  have hnotin : base ∉ (create_or_switch_to_session env st base).2.sessions := by
    rcases create_or_switch_state env st base with heq | ⟨heq, _⟩
    · rw [heq]
      exact hraw
    · rw [heq]
      intro hmem
      rcases List.mem_cons.mp hmem with heq2 | hm
      · exact sessionNameOf_ne_of_dot base hdot heq2.symm
      · exact hraw hm
  have hkill : kill_session_if_named (create_or_switch_to_session env st base).2 base
      = (create_or_switch_to_session env st base).2 := by
    unfold kill_session_if_named
    have : session_exists (create_or_switch_to_session env st base).2.sessions base
        = false := by
      rcases hse : session_exists (create_or_switch_to_session env st base).2.sessions
          base with _ | _
      · rfl
      · exact absurd ((session_exists_iff_mem _ _).mp hse) hnotin
    simp [this]
  exact ⟨hcreated, hkill, by rw [hkill]; exact hcreated⟩

/-- C10 witness: worktree `my.feature` on an empty server — its session
`my-feature` survives the raw-name kill performed on removal. -/
theorem dotted_worktree_session_survives_removal_witness :
    session_exists
      (create_or_switch_to_session sessionEnvOk ⟨[]⟩ "my.feature").2.sessions
      (sessionNameOf "my.feature") = true
    ∧ kill_session_if_named
        (create_or_switch_to_session sessionEnvOk ⟨[]⟩ "my.feature").2 "my.feature"
        = (create_or_switch_to_session sessionEnvOk ⟨[]⟩ "my.feature").2
    ∧ session_exists
        (kill_session_if_named
          (create_or_switch_to_session sessionEnvOk ⟨[]⟩ "my.feature").2
          "my.feature").sessions
        (sessionNameOf "my.feature") = true :=
  dotted_worktree_session_survives_removal sessionEnvOk ⟨[]⟩ "my.feature"
    (by decide) (by decide) (by decide)

/-- Looking up the key just written returns the fresh entry. -/
theorem cacheLookup_insert (cache : PaneCache) (k : String) (ts : Int)
    (v : PanePayload) :
    cacheLookup (cacheInsert cache k ts v) k = some (ts, v) := by
  simp [cacheLookup, cacheInsert]

/-- Every branch of the capture body stores its result under the current
timestamp before returning it. -/
theorem pane_capture_caches (env : PaneEnv) (cache : PaneCache) (now : Int)
    (name : String) :
    ∃ r, _pane_preview_capture env cache now name
      = (r, cacheInsert cache name now r) := by
  unfold _pane_preview_capture
  by_cases hsa : env.serverAvailable = true <;> simp [hsa]
  by_cases hex : session_exists env.sessions (sessionNameOf name) = true <;>
    simp [hex]
  rcases hwq : env.windowsQuery with e | ws <;> simp [hwq]
  by_cases hwe : ws = [] <;> simp [hwe]

/-- A cache hit younger than the TTL is returned verbatim, cache
untouched. -/
theorem preview_hit (env : PaneEnv) (cache : PaneCache) (now ts : Int)
    (name : String) (d : PanePayload)
    (hname : name ≠ "")
    (hl : cacheLookup cache name = some (ts, d))
    (hfresh : now - ts < TMUX_PANE_CACHE_TTL) :
    get_tmux_pane_preview env cache now name = (d, cache) := by
  unfold get_tmux_pane_preview
  simp [hname, hl, hfresh]

/-- A cache entry at or past the TTL falls through to the capture body. -/
theorem preview_stale (env : PaneEnv) (cache : PaneCache) (now ts : Int)
    (name : String) (d : PanePayload)
    (hname : name ≠ "")
    (hl : cacheLookup cache name = some (ts, d))
    (hstale : ¬now - ts < TMUX_PANE_CACHE_TTL) :
    get_tmux_pane_preview env cache now name
      = _pane_preview_capture env cache now name := by
  unfold get_tmux_pane_preview
  simp [hname, hl, hstale]

/-- A cache miss falls through to the capture body. -/
theorem preview_miss (env : PaneEnv) (cache : PaneCache) (now : Int)
    (name : String)
    (hname : name ≠ "")
    (hl : cacheLookup cache name = none) :
    get_tmux_pane_preview env cache now name
      = _pane_preview_capture env cache now name := by
  unfold get_tmux_pane_preview
  simp [hname, hl]

/-- C8: for a worktree name with no live cache entry, a first call at
`t1` captures and caches; any second call within the 30s TTL returns the
exact cached payload with the cache untouched (no capture body runs);
and a call at or past the TTL runs the capture body again and re-caches
its result under the current timestamp. -/
theorem pane_preview_cache_ttl (env1 env2 env3 : PaneEnv) (c0 : PaneCache)
    (t1 t2 t3 : Int) (name : String)
    (hname : name ≠ "")
    (h0 : cacheLookup c0 name = none)
    (h12 : t2 - t1 < TMUX_PANE_CACHE_TTL)
    (h13 : TMUX_PANE_CACHE_TTL ≤ t3 - t1) :
    get_tmux_pane_preview env2 (get_tmux_pane_preview env1 c0 t1 name).2 t2 name
      = get_tmux_pane_preview env1 c0 t1 name
    ∧ get_tmux_pane_preview env3 (get_tmux_pane_preview env1 c0 t1 name).2 t3 name
      = _pane_preview_capture env3 (get_tmux_pane_preview env1 c0 t1 name).2 t3 name
    ∧ cacheLookup
        (get_tmux_pane_preview env3 (get_tmux_pane_preview env1 c0 t1 name).2
          t3 name).2 name
      = some (t3,
          (get_tmux_pane_preview env3 (get_tmux_pane_preview env1 c0 t1 name).2
            t3 name).1) := by
  have hfirst : get_tmux_pane_preview env1 c0 t1 name
      = _pane_preview_capture env1 c0 t1 name :=
    preview_miss env1 c0 t1 name hname h0
  obtain ⟨r1, hcap1⟩ := pane_capture_caches env1 c0 t1 name
  have hc1 : (get_tmux_pane_preview env1 c0 t1 name).2
      = cacheInsert c0 name t1 r1 := by
    rw [hfirst, hcap1]
  have hr1 : (get_tmux_pane_preview env1 c0 t1 name).1 = r1 := by
    rw [hfirst, hcap1]
  have hlook : cacheLookup (get_tmux_pane_preview env1 c0 t1 name).2 name
      = some (t1, r1) := by
    rw [hc1]
    exact cacheLookup_insert c0 name t1 r1
  have hstale : ¬t3 - t1 < TMUX_PANE_CACHE_TTL := by omega
  refine ⟨?_, ?_, ?_⟩
  · rw [preview_hit env2 _ t2 t1 name r1 hname hlook h12]
    exact Prod.ext_iff.mpr ⟨hr1.symm, rfl⟩
  · exact preview_stale env3 _ t3 t1 name r1 hname hlook hstale
  · rw [preview_stale env3 _ t3 t1 name r1 hname hlook hstale]
    obtain ⟨r3, hcap3⟩ :=
      pane_capture_caches env3 (get_tmux_pane_preview env1 c0 t1 name).2 t3 name
    rw [hcap3]
    exact cacheLookup_insert _ name t3 r3

def paneEnvDown : PaneEnv :=
  { serverAvailable := false, sessions := [], windowsQuery := .ok [] }

/-- C8 witness: with the tmux server unavailable, the cached
`Tmux not available` status string is returned verbatim at `t = 10`,
and the call at `t = 40` re-captures and re-caches. -/
theorem pane_preview_cache_ttl_witness :
    get_tmux_pane_preview paneEnvDown
        (get_tmux_pane_preview paneEnvDown [] 0 "feature-one").2 10 "feature-one"
      = get_tmux_pane_preview paneEnvDown [] 0 "feature-one"
    ∧ get_tmux_pane_preview paneEnvDown
        (get_tmux_pane_preview paneEnvDown [] 0 "feature-one").2 40 "feature-one"
      = _pane_preview_capture paneEnvDown
          (get_tmux_pane_preview paneEnvDown [] 0 "feature-one").2 40 "feature-one"
    ∧ cacheLookup
        (get_tmux_pane_preview paneEnvDown
          (get_tmux_pane_preview paneEnvDown [] 0 "feature-one").2
          40 "feature-one").2 "feature-one"
      = some (40,
          (get_tmux_pane_preview paneEnvDown
            (get_tmux_pane_preview paneEnvDown [] 0 "feature-one").2
            40 "feature-one").1) :=
  pane_preview_cache_ttl paneEnvDown paneEnvDown paneEnvDown [] 0 10 40
    "feature-one" (by decide) (by decide) (by decide) (by decide)

end Grove
